import Mathlib

/-!
Shallow embedding of the nerdctl container health-check engine
(package `healthcheck`: `ExecuteHealthCheck`, `probeHealthCheck`,
`updateHealthStatus`, `prepareProcessSpec`).

Go time instants and durations are embedded as `Int` (nanoseconds).
Go `int` fields (`ExitCode`, `Retries`, `FailingStreak`) are embedded as `Int`.
The external collaborators (container label store, container info, health log
file, start-period systemd timer) are embedded as an explicit `Store` state
threaded through the functions; each fallible collaborator call carries a
failure flag in the store so that error paths of the Go code are represented.
The timeout-versus-exit race inside `probeHealthCheck` and exec/start/wait
infrastructure failures are embedded as an explicit `ProbeOutcome` input.
-/

namespace Nerdctl

/-- Health status values (`Starting`, `Healthy`, `Unhealthy`). -/
inductive HealthStatus where
  | Starting
  | Healthy
  | Unhealthy
deriving DecidableEq, Repr

/-- Persisted health state: status plus consecutive-failure counter. -/
structure HealthState where
  Status : HealthStatus
  FailingStreak : Int
deriving DecidableEq, Repr

/-- Health-check configuration (fields used by the embedded functions). -/
structure Healthcheck where
  Test : List String
  Interval : Int
  Timeout : Int
  StartPeriod : Int
  StartInterval : Int
  Retries : Int
deriving DecidableEq, Repr

/-- Result of one probe execution. -/
structure HealthcheckResult where
  Start : Int
  End : Int
  ExitCode : Int
  Output : String
deriving DecidableEq, Repr

/-- Modelled from the spec: the tag constants dispatched on by
`prepareProcessSpec` (`TestNone`, `CmdNone`, `Cmd`, `CmdShell`) are declared
elsewhere in the repository (outside the given source files); the spec names
them the `None`, `Exec-argv` and `Shell-string` tags. Only their pairwise
distinctness matters to the embedded code. -/
def TestNone : String := "NONE"

/-- Modelled from the spec: second spelling of the `None` tag. -/
def CmdNone : String := "CMD-NONE"

/-- Modelled from the spec: the `Exec-argv` tag. -/
def Cmd : String := "CMD"

/-- Modelled from the spec: the `Shell-string` tag. -/
def CmdShell : String := "CMD-SHELL"

/-- External state visible to `updateHealthStatus`: the persisted health
state and health log, the start-period timer, and failure flags for each
fallible collaborator call (label read, container info, label write,
log write). -/
structure Store where
  healthState : Option HealthState
  healthLog : List HealthcheckResult
  startPeriodTimer : Bool
  readFails : Bool
  infoFails : Bool
  writeStateFails : Bool
  writeLogFails : Bool
deriving DecidableEq, Repr

/-- Embeds `writeHealthStateToLabels`: persist the new health state, or fail
without mutating anything. -/
def writeHealthStateToLabels (repo : Store) (h : HealthState) :
    Store × Except String Unit :=
  if repo.writeStateFails then
    (repo, .error "failed to write health state to labels")
  else
    ({ repo with healthState := some h }, .ok ())

/-- Embeds `writeHealthLog`: append the probe result to the health log, or
fail without mutating anything. -/
def writeHealthLog (repo : Store) (r : HealthcheckResult) :
    Store × Except String Unit :=
  if repo.writeLogFails then
    (repo, .error "failed to write health log")
  else
    ({ repo with healthLog := repo.healthLog ++ [r] }, .ok ())

/-- Tail of `updateHealthStatus`: write the computed state back to labels,
then append the result to the health log, propagating the first error. -/
def finishUpdate (repo : Store) (h : HealthState) (r : HealthcheckResult) :
    Store × Except String Unit :=
  match writeHealthStateToLabels repo h with
  | (repo1, .error e) => (repo1, .error e)
  | (repo1, .ok ()) => writeHealthLog repo1 r

/-- Default health state used when no state is persisted yet. -/
def defaultHealthState : HealthState :=
  { Status := .Starting, FailingStreak := 0 }

/-- Embeds `updateHealthStatus`: read the current state (default
`{Starting, 0}` if absent), branch on the workflow tag, compute the next
state, persist it and append the result to the log. The start-period
early-exit branch returns before any write; an unknown workflow tag errors
before any write. -/
def updateHealthStatus (repo : Store) (containerCreated : Int)
    (hcConfig : Healthcheck) (hcResult : HealthcheckResult)
    (workflowType : String) : Store × Except String Unit :=
  if repo.readFails then
    (repo, .error "failed to read health state from labels")
  else
    let currentHealth := repo.healthState.getD defaultHealthState
    if repo.infoFails then
      (repo, .error "failed to get container info")
    else
      let stillInStartPeriod : Prop :=
        hcResult.Start - containerCreated < hcConfig.StartPeriod
      if workflowType = "start-period" then
        if currentHealth.Status = .Healthy ∨ ¬ stillInStartPeriod then
          ({ repo with startPeriodTimer := false }, .ok ())
        else if hcResult.ExitCode = 0 then
          finishUpdate { repo with startPeriodTimer := false }
            { Status := .Healthy, FailingStreak := 0 } hcResult
        else
          finishUpdate repo currentHealth hcResult
      else if workflowType = "health-interval" then
        let newHealth : HealthState :=
          if hcResult.ExitCode = 0 then
            { Status := .Healthy, FailingStreak := 0 }
          else if ¬ stillInStartPeriod then
            let streak := currentHealth.FailingStreak + 1
            if streak ≥ hcConfig.Retries then
              { Status := .Unhealthy, FailingStreak := streak }
            else
              { Status := currentHealth.Status, FailingStreak := streak }
          else currentHealth
        finishUpdate repo newHealth hcResult
      else
        (repo, .error ("unknown workflow type: " ++ workflowType))

/-- Process context inherited from the container's configured process spec. -/
structure ContainerProcess where
  Env : List String
  User : String
  Cwd : String
deriving DecidableEq, Repr

/-- Resolved probe process specification. -/
structure ProcessSpec where
  Args : List String
  Env : List String
  User : String
  Cwd : String
deriving DecidableEq, Repr

/-- Outcome of `prepareProcessSpec`: a resolved spec, a skip (`nil, nil` for
the `None` tag), a configuration error, or the Go panic on an empty `Test`
slice (`hcCommand[0]` out of range). -/
inductive PrepareOutcome where
  | procSpec (s : ProcessSpec)
  | skip
  | err (msg : String)
  | panicIndex
deriving DecidableEq, Repr

/-- Embeds `prepareProcessSpec`: tag dispatch on `Test[0]`, shell-string
validation and joining, the empty-first-argument check, then inheriting
env/user/cwd from the container spec (whose retrieval may fail, embedded by
`specErr`). -/
def prepareProcessSpec (specErr : Option String) (cSpec : ContainerProcess)
    (hcConfig : Healthcheck) : PrepareOutcome :=
  match hcConfig.Test with
  | [] => .panicIndex
  | t0 :: rest =>
    if t0 = TestNone ∨ t0 = CmdNone then
      .skip
    else if t0 = CmdShell ∧ (rest.length < 1 ∨ (rest.headD "").trim = "") then
      .err "no health check command specified"
    else
      let args : List String :=
        if t0 = Cmd then rest
        else if t0 = CmdShell then
          ["/bin/sh", "-c", String.intercalate " " rest]
        else t0 :: rest
      if args.length < 1 ∨ args.headD "" = "" then
        .err "no health check command specified"
      else
        match specErr with
        | some e => .err ("failed to get container spec: " ++ e)
        | none =>
          .procSpec { Args := args, Env := cSpec.Env, User := cSpec.User,
                      Cwd := cSpec.Cwd }

/-- Possible outcomes of the probe execution: exec/start/wait infrastructure
failures, the timeout firing first (with the buffer contents captured so
far), or the process exiting first. -/
inductive ProbeOutcome where
  | execError (msg : String)
  | startError (msg : String)
  | waitError (msg : String)
  | timeoutFires (captured : String) (endTime : Int)
  | processExits (code : Int) (output : String) (endTime : Int)
deriving DecidableEq, Repr

/-- Embeds `probeHealthCheck`: infrastructure failures become wrapped errors;
the timeout branch returns a normal result with `ExitCode = -1` and the
diagnostic message (appending the captured output after a colon when
non-empty); the exit branch returns the real exit code and the buffer
contents. `durFmt` embeds Go's `%v` formatting of the timeout duration. -/
def probeHealthCheck (hcConfig : Healthcheck) (durFmt : Int → String)
    (outcome : ProbeOutcome) : Except String HealthcheckResult :=
  match outcome with
  | .execError m => .error ("exec error: " ++ m)
  | .startError m => .error ("start error: " ++ m)
  | .waitError m => .error ("failed to wait for health check: " ++ m)
  | .timeoutFires captured endTime =>
    let base := "Health check exceeded timeout (" ++ durFmt hcConfig.Timeout ++ ")"
    let msg := if captured.length > 0 then base ++ ": " ++ captured else base
    .ok { Start := 0, End := endTime, ExitCode := -1, Output := msg }
  | .processExits code out endTime =>
    .ok { Start := 0, End := endTime, ExitCode := code, Output := out }

/-- Embeds `ExecuteHealthCheck`: prepare the process spec (propagating
configuration errors, skipping on `nil` spec), run the probe, and on probe
error record a failed result (`ExitCode = -1`, `Output` = error text) through
`updateHealthStatus` (discarding the recording error) before returning the
wrapped probe error; on probe success set `Start` and update health status,
wrapping any update error. -/
def ExecuteHealthCheck (repo : Store) (containerCreated : Int)
    (specErr : Option String) (cSpec : ContainerProcess)
    (hcConfig : Healthcheck) (workflowType : String) (durFmt : Int → String)
    (outcome : ProbeOutcome) (startTime now : Int) :
    Store × Except String Unit :=
  match prepareProcessSpec specErr cSpec hcConfig with
  | .err m => (repo, .error m)
  | .panicIndex => (repo, .error "panic: index out of range")
  | .skip => (repo, .ok ())
  | .procSpec _ =>
    match probeHealthCheck hcConfig durFmt outcome with
    | .error m =>
      let res : HealthcheckResult :=
        { Start := startTime, End := now, ExitCode := -1, Output := m }
      ((updateHealthStatus repo containerCreated hcConfig res workflowType).1,
       .error ("health check probe failed: " ++ m))
    | .ok r =>
      let r1 : HealthcheckResult := { r with Start := startTime }
      match updateHealthStatus repo containerCreated hcConfig r1 workflowType with
      | (repo1, .ok ()) => (repo1, .ok ())
      | (repo1, .error m) =>
        (repo1, .error ("failed to update health status: " ++ m))

/-- Observer: the status recorded in a store, defaulting like the code does. -/
def storeStatus (repo : Store) : HealthStatus :=
  (repo.healthState.getD defaultHealthState).Status

/-- Iterate `updateHealthStatus` under the start-period workflow over a
sequence of probe results, threading the store, as the external scheduler
ticks would. -/
def runStartPeriod (containerCreated : Int) (hcConfig : Healthcheck)
    (repo : Store) (results : List HealthcheckResult) : Store :=
  results.foldl
    (fun s r => (updateHealthStatus s containerCreated hcConfig r "start-period").1)
    repo

/-- Store resulting from a successful state write plus log append. -/
def recordResult (repo : Store) (h : HealthState) (r : HealthcheckResult) : Store := { repo with healthState := some h, healthLog := repo.healthLog ++ [r] }

/-- Store with no persisted state, an armed start-period timer, and all
collaborators succeeding. -/
def emptyStore : Store :=
  { healthState := none, healthLog := [], startPeriodTimer := true,
    readFails := false, infoFails := false, writeStateFails := false,
    writeLogFails := false }

/-- Store whose label write fails (persistence error injection). -/
def failingStore : Store := { emptyStore with writeStateFails := true }

/-- Sample container process context. -/
def sampleProc : ContainerProcess :=
  { Env := ["PATH=/usr/bin"], User := "root", Cwd := "/" }

/-- Sample configuration: exec-argv probe, `Retries = 3`, zero start period. -/
def sampleHC : Healthcheck :=
  { Test := [Cmd, "true"], Interval := 30, Timeout := 2, StartPeriod := 0,
    StartInterval := 0, Retries := 3 }

/-- Sample failing probe result. -/
def failRes : HealthcheckResult := { Start := 0, End := 0, ExitCode := 1, Output := "" }

/-- Sample successful probe result. -/
def okRes : HealthcheckResult := { Start := 0, End := 0, ExitCode := 0, Output := "" }

/-- Helper: the persisted state after `finishUpdate` is the written state
unless the label write fails, in which case it is unchanged. -/
lemma finishUpdate_healthState (repo : Store) (h : HealthState) (r : HealthcheckResult) :
    (finishUpdate repo h r).1.healthState =
      if repo.writeStateFails = true then repo.healthState else some h := by
  unfold finishUpdate writeHealthStateToLabels writeHealthLog
  cases hws : repo.writeStateFails <;> simp [hws]
  cases hwl : repo.writeLogFails <;> simp [hwl]

/-- Helper: one start-period tick never turns a non-Unhealthy store
Unhealthy (every branch leaves the status unchanged or sets Healthy). -/
lemma startPeriod_status_preserved
    (repo : Store) (cc : Int) (hc : Healthcheck) (r : HealthcheckResult)
    (h : storeStatus repo ≠ .Unhealthy) :
    storeStatus (updateHealthStatus repo cc hc r "start-period").1 ≠ .Unhealthy := by
  unfold storeStatus at h ⊢
  unfold updateHealthStatus
  by_cases hrf : repo.readFails = true
  · simp [hrf]; exact h
  · by_cases hif : repo.infoFails = true
    · simp [hrf, hif]; exact h
    · by_cases hcond : (repo.healthState.getD defaultHealthState).Status = HealthStatus.Healthy ∨
          hc.StartPeriod ≤ r.Start - cc
      · simp [hrf, hif, hcond]; exact h
      · by_cases hec : r.ExitCode = 0
        · simp [hrf, hif, hcond, hec, finishUpdate_healthState]
          by_cases hws : repo.writeStateFails = true <;> simp [hws] <;> exact h
        · simp [hrf, hif, hcond, hec, finishUpdate_healthState]
          by_cases hws : repo.writeStateFails = true <;> simp [hws] <;> exact h

/-- C1 (amended): for a probe result with `ExitCode == 0` and succeeding
collaborators, the persisted state becomes `{Healthy, 0}` under the
health-interval workflow from any prior state, and under the start-period
workflow provided the result is still inside the start period and the prior
status is not already Healthy. (The original claim, quantifying over both
workflows unconditionally, fails on the start-period early-exit branch; see
the counterexample.) -/
theorem C1_success_sets_healthy
    (repo : Store) (cc : Int) (hc : Healthcheck) (r : HealthcheckResult)
    (wt : String)
    (hread : repo.readFails = false) (hinfo : repo.infoFails = false)
    (hwrite : repo.writeStateFails = false)
    (hexit : r.ExitCode = 0)
    (hwt : wt = "health-interval" ∨
      (wt = "start-period" ∧ r.Start - cc < hc.StartPeriod ∧
        (repo.healthState.getD defaultHealthState).Status ≠ .Healthy)) :
    (updateHealthStatus repo cc hc r wt).1.healthState =
      some { Status := .Healthy, FailingStreak := 0 } := by
  rcases hwt with hwt | ⟨hwt, hstill, hstatus⟩ <;> subst hwt <;>
    unfold updateHealthStatus <;>
    split_ifs <;> simp_all [finishUpdate_healthState]

/-- C1 counterexample: under the start-period workflow, with the start
period already over (`StartPeriod = 0`), a successful probe (`ExitCode = 0`)
leaves the default state untouched: the resulting status is `Starting`, not
`Healthy`, refuting the claim as stated. -/
theorem C1_counterexample :
    ¬ (storeStatus (updateHealthStatus emptyStore 0 sampleHC okRes
        "start-period").1 = HealthStatus.Healthy ∧
      ((updateHealthStatus emptyStore 0 sampleHC okRes
        "start-period").1.healthState.getD defaultHealthState).FailingStreak = 0) := by
  decide

/-- C1 witness: a concrete successful probe under the health-interval
workflow yields the persisted state `{Healthy, 0}`. -/
theorem C1_success_sets_healthy_witness :
    (updateHealthStatus emptyStore 0 sampleHC okRes "health-interval").1.healthState =
      some { Status := .Healthy, FailingStreak := 0 } :=
  C1_success_sets_healthy emptyStore 0 sampleHC okRes "health-interval"
    rfl rfl rfl rfl (Or.inl rfl)

/-- C2 (amended): the invariant that holds and is preserved by
`updateHealthStatus` is `Status == Healthy → FailingStreak < Retries` (for
configurations with `Retries ≥ 1`), not `FailingStreak == 0`: a failing
probe counted outside the start period increments the streak while the
status stays `Healthy` until the streak reaches `Retries`. -/
theorem C2_invariant_preserved
    (repo : Store) (cc : Int) (hc : Healthcheck) (r : HealthcheckResult)
    (wt : String)
    (hret : 1 ≤ hc.Retries)
    (hinv : (repo.healthState.getD defaultHealthState).Status = .Healthy →
      (repo.healthState.getD defaultHealthState).FailingStreak < hc.Retries) :
    ((updateHealthStatus repo cc hc r wt).1.healthState.getD defaultHealthState).Status = .Healthy →
      ((updateHealthStatus repo cc hc r wt).1.healthState.getD defaultHealthState).FailingStreak < hc.Retries := by
  unfold updateHealthStatus
  by_cases hrf : repo.readFails = true
  · simp [hrf]; exact hinv
  · by_cases hif : repo.infoFails = true
    · simp [hrf, hif]; exact hinv
    · by_cases hsp : wt = "start-period"
      · by_cases hcond : (repo.healthState.getD defaultHealthState).Status = HealthStatus.Healthy ∨
            hc.StartPeriod ≤ r.Start - cc
        · simp [hrf, hif, hsp, hcond]; exact hinv
        · by_cases hec : r.ExitCode = 0
          · simp [hrf, hif, hsp, hcond, hec, finishUpdate_healthState]
            by_cases hws : repo.writeStateFails = true <;> simp [hws]
            · exact hinv
            · omega
          · simp [hrf, hif, hsp, hcond, hec, finishUpdate_healthState]
            by_cases hws : repo.writeStateFails = true <;> simp [hws]
            · exact hinv
            · exact hinv
      · by_cases hhi : wt = "health-interval"
        · by_cases hec : r.ExitCode = 0
          · simp [hrf, hif, hsp, hhi, hec, finishUpdate_healthState]
            by_cases hws : repo.writeStateFails = true <;> simp [hws]
            · exact hinv
            · omega
          · by_cases hnstill : hc.StartPeriod ≤ r.Start - cc
            · by_cases hk : hc.Retries ≤ (repo.healthState.getD defaultHealthState).FailingStreak + 1
              · simp [hrf, hif, hsp, hhi, hec, hnstill, hk, finishUpdate_healthState]
                by_cases hws : repo.writeStateFails = true <;> simp [hws]
                exact hinv
              · simp [hrf, hif, hsp, hhi, hec, hnstill, hk, finishUpdate_healthState]
                by_cases hws : repo.writeStateFails = true <;> simp [hws]
                · exact hinv
                · omega
            · simp [hrf, hif, hsp, hhi, hec, hnstill, finishUpdate_healthState]
              by_cases hws : repo.writeStateFails = true <;> simp [hws] <;> exact hinv
        · simp [hrf, hif, hsp, hhi]; exact hinv

/-- C2 counterexample: from the state `{Healthy, 0}` (which satisfies the
claimed invariant), one failing probe under the health-interval workflow
with `Retries = 3` produces a state whose status is `Healthy` but whose
failing streak is `1`, refuting `FailingStreak == 0 whenever Status ==
Healthy` as a preserved invariant. -/
theorem C2_counterexample :
    ¬ ((storeStatus (updateHealthStatus
          { emptyStore with healthState := some { Status := .Healthy, FailingStreak := 0 } }
          0 sampleHC failRes "health-interval").1 = HealthStatus.Healthy) →
        ((updateHealthStatus
          { emptyStore with healthState := some { Status := .Healthy, FailingStreak := 0 } }
          0 sampleHC failRes "health-interval").1.healthState.getD
            defaultHealthState).FailingStreak = 0) := by
  decide

/-- C2 witness: concrete instance of the amended invariant preservation. -/
theorem C2_invariant_preserved_witness :
    (1 ≤ sampleHC.Retries) ∧
    (((updateHealthStatus emptyStore 0 sampleHC failRes
        "health-interval").1.healthState.getD defaultHealthState).Status = .Healthy →
      ((updateHealthStatus emptyStore 0 sampleHC failRes
        "health-interval").1.healthState.getD defaultHealthState).FailingStreak <
          sampleHC.Retries) :=
  ⟨by decide, C2_invariant_preserved emptyStore 0 sampleHC failRes "health-interval"
    (by decide) (by decide)⟩

/-- C3: under the health-interval workflow, outside the start period, with
`Retries = 3` and starting from the default state `{Starting, 0}`, three
consecutive failing results keep the status `Starting` for the first two
ticks and flip it to `Unhealthy` exactly on the third, with the failing
streak reaching exactly `3` at the flip. -/
theorem C3_three_failures_flip
    (repo : Store) (cc : Int) (hc : Healthcheck)
    (r1 r2 r3 : HealthcheckResult)
    (hrf : repo.readFails = false) (hif : repo.infoFails = false)
    (hws : repo.writeStateFails = false) (hwl : repo.writeLogFails = false)
    (hstate : repo.healthState = none)
    (hret : hc.Retries = 3)
    (h1 : r1.ExitCode ≠ 0) (h2 : r2.ExitCode ≠ 0) (h3 : r3.ExitCode ≠ 0)
    (t1 : hc.StartPeriod ≤ r1.Start - cc)
    (t2 : hc.StartPeriod ≤ r2.Start - cc)
    (t3 : hc.StartPeriod ≤ r3.Start - cc) :
    (updateHealthStatus repo cc hc r1 "health-interval").1.healthState =
        some { Status := .Starting, FailingStreak := 1 } ∧
    (updateHealthStatus (updateHealthStatus repo cc hc r1 "health-interval").1
        cc hc r2 "health-interval").1.healthState =
        some { Status := .Starting, FailingStreak := 2 } ∧
    (updateHealthStatus (updateHealthStatus
        (updateHealthStatus repo cc hc r1 "health-interval").1
        cc hc r2 "health-interval").1 cc hc r3 "health-interval").1.healthState =
        some { Status := .Unhealthy, FailingStreak := 3 } := by
  have e1 : (updateHealthStatus repo cc hc r1 "health-interval").1 =
      recordResult repo { Status := .Starting, FailingStreak := 1 } r1 := by
    unfold updateHealthStatus finishUpdate writeHealthStateToLabels writeHealthLog
    simp [hrf, hif, hws, hwl, h1, t1, hstate, defaultHealthState, hret, recordResult]
  have e2 : (updateHealthStatus (updateHealthStatus repo cc hc r1 "health-interval").1
      cc hc r2 "health-interval").1 =
      recordResult (recordResult repo { Status := .Starting, FailingStreak := 1 } r1)
        { Status := .Starting, FailingStreak := 2 } r2 := by
    rw [e1]
    unfold updateHealthStatus finishUpdate writeHealthStateToLabels writeHealthLog
    simp [hrf, hif, hws, hwl, h2, t2, hret, recordResult]
  have e3 : (updateHealthStatus (updateHealthStatus
      (updateHealthStatus repo cc hc r1 "health-interval").1
      cc hc r2 "health-interval").1 cc hc r3 "health-interval").1 =
      recordResult (recordResult (recordResult repo
        { Status := .Starting, FailingStreak := 1 } r1)
        { Status := .Starting, FailingStreak := 2 } r2)
        { Status := .Unhealthy, FailingStreak := 3 } r3 := by
    rw [e2]
    unfold updateHealthStatus finishUpdate writeHealthStateToLabels writeHealthLog
    simp [hrf, hif, hws, hwl, h3, t3, hret, recordResult]
  exact ⟨by rw [e1]; rfl, by rw [e2]; rfl, by rw [e3]; rfl⟩

/-- C3 witness: the three-failure sequence evaluated at concrete inputs. -/
theorem C3_three_failures_flip_witness :
    (updateHealthStatus emptyStore 0 sampleHC failRes "health-interval").1.healthState =
        some { Status := .Starting, FailingStreak := 1 } ∧
    (updateHealthStatus (updateHealthStatus emptyStore 0 sampleHC failRes
        "health-interval").1 0 sampleHC failRes "health-interval").1.healthState =
        some { Status := .Starting, FailingStreak := 2 } ∧
    (updateHealthStatus (updateHealthStatus
        (updateHealthStatus emptyStore 0 sampleHC failRes "health-interval").1
        0 sampleHC failRes "health-interval").1 0 sampleHC failRes
        "health-interval").1.healthState =
        some { Status := .Unhealthy, FailingStreak := 3 } :=
  C3_three_failures_flip emptyStore 0 sampleHC failRes failRes failRes
    rfl rfl rfl rfl rfl rfl (by decide) (by decide) (by decide)
    (by decide) (by decide) (by decide)

/-- C4: under the start-period workflow, applying any sequence of probe
results (any exit codes, any timing relative to the start period) from any
store whose recorded status is not `Unhealthy` — which covers every state
reachable by this workflow from the default `{Starting, 0}` — never yields
the status `Unhealthy`. -/
theorem C4_start_period_never_unhealthy
    (cc : Int) (hc : Healthcheck) (repo : Store)
    (results : List HealthcheckResult)
    (h : storeStatus repo ≠ .Unhealthy) :
    storeStatus (runStartPeriod cc hc repo results) ≠ .Unhealthy := by
  induction results generalizing repo with
  | nil => exact h
  | cons r rs ih =>
    simp only [runStartPeriod, List.foldl_cons] at ih ⊢
    exact ih _ (startPeriod_status_preserved repo cc hc r h)

/-- C4 witness: four consecutive failures from the default state under the
start-period workflow leave the status non-Unhealthy. -/
theorem C4_start_period_never_unhealthy_witness :
    storeStatus emptyStore ≠ .Unhealthy ∧
    storeStatus (runStartPeriod 0 sampleHC emptyStore
      [failRes, failRes, failRes, failRes]) ≠ .Unhealthy :=
  ⟨by decide, C4_start_period_never_unhealthy 0 sampleHC emptyStore
    [failRes, failRes, failRes, failRes] (by decide)⟩

/-- C5: when the timeout fires before process exit, `probeHealthCheck`
returns a normal result (no error) with `ExitCode = -1` and `Output` equal
to `"Health check exceeded timeout (<duration>)"`, with non-empty captured
output appended after a colon; and `ExecuteHealthCheck` feeds exactly this
result (with its start time set) through `updateHealthStatus`, the same
state-update path as any other failed probe. -/
theorem C5_timeout_result
    (repo : Store) (cc : Int) (specErr : Option String)
    (cSpec : ContainerProcess) (hc : Healthcheck) (wt : String)
    (durFmt : Int → String) (captured : String)
    (endTime startTime now : Int) (s : ProcessSpec)
    (hspec : prepareProcessSpec specErr cSpec hc = .procSpec s) :
    (probeHealthCheck hc durFmt (.timeoutFires captured endTime) =
      .ok { Start := 0, End := endTime, ExitCode := -1,
            Output := if captured.length > 0 then
                "Health check exceeded timeout (" ++ durFmt hc.Timeout ++ ")" ++ ": " ++ captured
              else "Health check exceeded timeout (" ++ durFmt hc.Timeout ++ ")" }) ∧
    (ExecuteHealthCheck repo cc specErr cSpec hc wt durFmt
        (.timeoutFires captured endTime) startTime now).1 =
      (updateHealthStatus repo cc hc
        { Start := startTime, End := endTime, ExitCode := -1,
          Output := if captured.length > 0 then
              "Health check exceeded timeout (" ++ durFmt hc.Timeout ++ ")" ++ ": " ++ captured
            else "Health check exceeded timeout (" ++ durFmt hc.Timeout ++ ")" } wt).1 := by
  refine ⟨rfl, ?_⟩
  unfold ExecuteHealthCheck
  rw [hspec]
  unfold probeHealthCheck
  rcases hu : updateHealthStatus repo cc hc
      { Start := startTime, End := endTime, ExitCode := -1,
        Output := if captured.length > 0 then
            "Health check exceeded timeout (" ++ durFmt hc.Timeout ++ ")" ++ ": " ++ captured
          else "Health check exceeded timeout (" ++ durFmt hc.Timeout ++ ")" } wt
    with ⟨repo1, e⟩
  cases e <;> simp [hu]

/-- C5 witness: a concrete timeout with captured output "wip" records the
result `{ExitCode := -1, Output := "Health check exceeded timeout (2s):
wip"}` through the normal update path. -/
theorem C5_timeout_result_witness :
    (ExecuteHealthCheck emptyStore 0 none sampleProc sampleHC "health-interval"
        (fun _ => "2s") (.timeoutFires "wip" 7) 5 9).1 =
      (updateHealthStatus emptyStore 0 sampleHC
        { Start := 5, End := 7, ExitCode := -1,
          Output := "Health check exceeded timeout (2s): wip" } "health-interval").1 :=
  (C5_timeout_result emptyStore 0 none sampleProc sampleHC "health-interval"
    (fun _ => "2s") "wip" 7 5 9
    { Args := ["true"], Env := ["PATH=/usr/bin"], User := "root", Cwd := "/" } rfl).2

/-- C6: when the probe fails with an infrastructure error,
`ExecuteHealthCheck` records a failed result (`ExitCode = -1`,
`Output` = the error text) through `updateHealthStatus` and still returns
the wrapped original error to its caller. -/
theorem C6_infra_error_recorded
    (repo : Store) (cc : Int) (specErr : Option String)
    (cSpec : ContainerProcess) (hc : Healthcheck) (wt : String)
    (durFmt : Int → String) (o : ProbeOutcome) (startTime now : Int)
    (s : ProcessSpec) (em : String)
    (hspec : prepareProcessSpec specErr cSpec hc = .procSpec s)
    (hprobe : probeHealthCheck hc durFmt o = .error em) :
    ExecuteHealthCheck repo cc specErr cSpec hc wt durFmt o startTime now =
      ((updateHealthStatus repo cc hc
          { Start := startTime, End := now, ExitCode := -1, Output := em } wt).1,
        .error ("health check probe failed: " ++ em)) := by
  unfold ExecuteHealthCheck
  rw [hspec, hprobe]

/-- C6 witness: a concrete exec failure is recorded and the original error
is surfaced. -/
theorem C6_infra_error_recorded_witness :
    ExecuteHealthCheck emptyStore 0 none sampleProc sampleHC "health-interval"
        (fun _ => "2s") (.execError "boom") 5 9 =
      ((updateHealthStatus emptyStore 0 sampleHC
          { Start := 5, End := 9, ExitCode := -1, Output := "exec error: boom" }
          "health-interval").1,
        .error "health check probe failed: exec error: boom") :=
  C6_infra_error_recorded emptyStore 0 none sampleProc sampleHC "health-interval"
    (fun _ => "2s") (.execError "boom") 5 9
    { Args := ["true"], Env := ["PATH=/usr/bin"], User := "root", Cwd := "/" }
    "exec error: boom" rfl rfl

/-- C7: for any workflow tag other than "start-period" and
"health-interval", `updateHealthStatus` returns an error and performs no
mutation: the returned store (persisted state, health log, timer, flags) is
exactly the input store. -/
theorem C7_unknown_workflow_no_mutation
    (repo : Store) (cc : Int) (hc : Healthcheck) (r : HealthcheckResult)
    (wt : String)
    (h1 : wt ≠ "start-period") (h2 : wt ≠ "health-interval") :
    (updateHealthStatus repo cc hc r wt).1 = repo ∧
    ∃ e, (updateHealthStatus repo cc hc r wt).2 = Except.error e := by
  unfold updateHealthStatus
  by_cases hrf : repo.readFails = true
  · simp [hrf]
  · by_cases hif : repo.infoFails = true
    · simp [hrf, hif]
    · simp [hrf, hif, h1, h2]

/-- C7 witness: the unknown workflow tag "bogus" leaves the store unchanged
and produces an error. -/
theorem C7_unknown_workflow_no_mutation_witness :
    (updateHealthStatus emptyStore 0 sampleHC failRes "bogus").1 = emptyStore ∧
    ∃ e, (updateHealthStatus emptyStore 0 sampleHC failRes "bogus").2 =
      Except.error e :=
  C7_unknown_workflow_no_mutation emptyStore 0 sampleHC failRes "bogus"
    (by decide) (by decide)

/-- C8: for a `Test` headed by the shell-string tag, a missing second
element or one that is blank after trimming yields the configuration error
"no health check command specified" and the entry point returns that error
without probing or mutating the store; a non-blank shell string resolves to
the argv `["/bin/sh", "-c", joined-rest]`. -/
theorem C8_shell_string_resolution
    (repo : Store) (cc : Int) (cSpec : ContainerProcess) (hc : Healthcheck)
    (rest : List String) (wt : String) (durFmt : Int → String)
    (o : ProbeOutcome) (startTime now : Int)
    (htest : hc.Test = CmdShell :: rest) :
    ((rest = [] ∨ (rest.headD "").trim = "") →
      prepareProcessSpec none cSpec hc = .err "no health check command specified" ∧
      ExecuteHealthCheck repo cc none cSpec hc wt durFmt o startTime now =
        (repo, .error "no health check command specified")) ∧
    (¬ (rest = [] ∨ (rest.headD "").trim = "") →
      prepareProcessSpec none cSpec hc =
        .procSpec { Args := ["/bin/sh", "-c", String.intercalate " " rest],
                    Env := cSpec.Env, User := cSpec.User, Cwd := cSpec.Cwd }) := by
  constructor
  · intro hblank
    have hp : prepareProcessSpec none cSpec hc = .err "no health check command specified" := by
      unfold prepareProcessSpec
      rw [htest]
      cases rest with
      | nil => simp [TestNone, CmdNone, Cmd, CmdShell]
      | cons a as =>
        rcases hblank with hnil | htrim
        · exact absurd hnil (by simp)
        · simp only [List.headD_cons] at htrim
          simp [TestNone, CmdNone, Cmd, CmdShell, htrim]
    exact ⟨hp, by unfold ExecuteHealthCheck; rw [hp]⟩
  · intro hblank
    cases rest with
    | nil => exact absurd (Or.inl rfl) hblank
    | cons a as =>
      have htrim : ¬ ((a :: as).headD "").trim = "" := fun hh => hblank (Or.inr hh)
      simp only [List.headD_cons] at htrim
      unfold prepareProcessSpec
      rw [htest]
      simp [TestNone, CmdNone, Cmd, CmdShell, htrim]

/-- C8 witness: `Test = [CmdShell]` (missing shell string) produces the
configuration error. -/
theorem C8_shell_string_resolution_witness :
    prepareProcessSpec none sampleProc { sampleHC with Test := [CmdShell] } =
      .err "no health check command specified" :=
  ((C8_shell_string_resolution emptyStore 0 sampleProc
      { sampleHC with Test := [CmdShell] } [] "health-interval"
      (fun _ => "2s") (.execError "x") 0 0 rfl).1 (Or.inl rfl)).1

/-- C9: for a `Test` headed by the None tag (either spelling),
`prepareProcessSpec` skips and `ExecuteHealthCheck` returns success with
the store completely unchanged: no probe runs, no state or log write
happens. -/
theorem C9_none_tag_noop
    (repo : Store) (cc : Int) (specErr : Option String)
    (cSpec : ContainerProcess) (hc : Healthcheck) (wt : String)
    (durFmt : Int → String) (o : ProbeOutcome) (startTime now : Int)
    (t0 : String) (rest : List String)
    (htest : hc.Test = t0 :: rest) (htag : t0 = TestNone ∨ t0 = CmdNone) :
    prepareProcessSpec specErr cSpec hc = .skip ∧
    ExecuteHealthCheck repo cc specErr cSpec hc wt durFmt o startTime now =
      (repo, .ok ()) := by
  have hp : prepareProcessSpec specErr cSpec hc = .skip := by
    unfold prepareProcessSpec
    rw [htest]
    simp [htag]
  exact ⟨hp, by unfold ExecuteHealthCheck; rw [hp]⟩

/-- C9 witness: `Test = [TestNone]` makes the entry point succeed with the
store unchanged. -/
theorem C9_none_tag_noop_witness :
    prepareProcessSpec none sampleProc { sampleHC with Test := [TestNone] } = .skip ∧
    ExecuteHealthCheck emptyStore 0 none sampleProc
        { sampleHC with Test := [TestNone] } "health-interval"
        (fun _ => "2s") (.execError "x") 0 0 =
      (emptyStore, .ok ()) :=
  C9_none_tag_noop emptyStore 0 none sampleProc
    { sampleHC with Test := [TestNone] } "health-interval"
    (fun _ => "2s") (.execError "x") 0 0 TestNone [] rfl (Or.inl rfl)

/-- C10: when the probe fails with an infrastructure error and recording
the failed result itself fails (`updateHealthStatus` returns an error, for
example a persistence error), the entry point still returns only the
wrapped probe error — the persistence error is discarded, so the caller
cannot tell whether the failed result was recorded. -/
theorem C10_persistence_error_discarded
    (repo : Store) (cc : Int) (specErr : Option String)
    (cSpec : ContainerProcess) (hc : Healthcheck) (wt : String)
    (durFmt : Int → String) (o : ProbeOutcome) (startTime now : Int)
    (s : ProcessSpec) (em pe : String)
    (hspec : prepareProcessSpec specErr cSpec hc = .procSpec s)
    (hprobe : probeHealthCheck hc durFmt o = .error em)
    (_hupd : (updateHealthStatus repo cc hc
        { Start := startTime, End := now, ExitCode := -1, Output := em } wt).2 =
      Except.error pe) :
    (ExecuteHealthCheck repo cc specErr cSpec hc wt durFmt o startTime now).2 =
      .error ("health check probe failed: " ++ em) := by
  unfold ExecuteHealthCheck
  rw [hspec, hprobe]

/-- C10 witness: with a store whose label write fails, the recording of a
concrete exec failure errors, yet the entry point reports only the probe
error. -/
theorem C10_persistence_error_discarded_witness :
    (ExecuteHealthCheck failingStore 0 none sampleProc sampleHC "health-interval"
        (fun _ => "2s") (.execError "boom") 5 9).2 =
      .error "health check probe failed: exec error: boom" :=
  C10_persistence_error_discarded failingStore 0 none sampleProc sampleHC
    "health-interval" (fun _ => "2s") (.execError "boom") 5 9
    { Args := ["true"], Env := ["PATH=/usr/bin"], User := "root", Cwd := "/" }
    "exec error: boom" "failed to write health state to labels" rfl rfl rfl

end Nerdctl
